import Mathlib

/-!
Shallow embedding of the two provisioning scripts of this repository:
`scripts/install-faster-whisper.py` and `scripts/install-whisper-deps.py`.

Each script only shells out to external commands and inspects the results,
so a run is modelled as a pure function of an *environment*: an oracle
giving the outcome of every external interaction (subprocess results,
marker-file presence, the host OS name, importability of libraries).
Each modelled function returns its Python return value together with the
ordered trace of external commands it issues, and the process exit status
is derived exactly as the `__main__` block does.
-/

namespace InstallFasterWhisper

/-- Result of a completed `subprocess.run` call: return code plus captured
standard output and standard error. -/
structure RawResult where
  returncode : Int
  stdout : String
  stderr : String
deriving DecidableEq, Repr

/-- Environment oracle for `install-faster-whisper.py`: for each command
string, either the completed subprocess result (`Except.ok`) or the text of
the exception raised by `subprocess.run` (`Except.error`). -/
structure Env where
  exec : String → Except String RawResult

/-- Embedding of `run_command` (install-faster-whisper.py, lines 10-16):
runs the command, returns `(returncode == 0, stdout, stderr)`; any
exception is caught and mapped to `(False, "", str(e))`. -/
def run_command (env : Env) (command : String) : Bool × String × String :=
  match env.exec command with
  | Except.ok r => (r.returncode == 0, r.stdout, r.stderr)
  | Except.error e => (false, "", e)

/-- The command probing for the python runtime. -/
def pythonProbe : String := "python --version"

/-- The command probing for the pip tool. -/
def pipProbe : String := "pip --version"

/-- The primary package-installation command. -/
def installCmd : String := "pip install faster-whisper"

/-- The single fallback installation command (the `--upgrade` variant). -/
def upgradeCmd : String := "pip install --upgrade faster-whisper"

/-- The post-install verification command (imports the library). -/
def verifyCmd : String :=
  "python -c \"import faster_whisper; print(\x27faster-whisper version:\x27, faster_whisper.__version__)\""

/-- Embedding of `main` (install-faster-whisper.py, lines 18-88): probes
python and pip, aborting on failure; installs the package; on primary
failure tries the `--upgrade` fallback once; on primary success verifies
by importing the library. Returns the Python boolean result together with the
ordered list of commands passed to `run_command`. -/
def fmain (env : Env) : Bool × List String :=
  if (run_command env pythonProbe).1 then
    if (run_command env pipProbe).1 then
      if (run_command env installCmd).1 then
        if (run_command env verifyCmd).1 then
          (true, [pythonProbe, pipProbe, installCmd, verifyCmd])
        else
          (false, [pythonProbe, pipProbe, installCmd, verifyCmd])
      else
        if (run_command env upgradeCmd).1 then
          (true, [pythonProbe, pipProbe, installCmd, upgradeCmd])
        else
          (false, [pythonProbe, pipProbe, installCmd, upgradeCmd])
    else (false, [pythonProbe, pipProbe])
  else (false, [pythonProbe])

/-- Embedding of the `__main__` block (lines 90-92):
`sys.exit(0 if main() else 1)`. -/
def exitCode (env : Env) : Nat := if (fmain env).1 then 0 else 1

end InstallFasterWhisper

namespace InstallWhisperDeps

/-- Model of Python's `str.lower()` restricted to ASCII: every character in
the A-Z range is shifted to its lowercase form. The script only compares the
lowered string against the ASCII constants `"windows"`, `"darwin"` and
`"linux"`, for which ASCII lowering agrees with Unicode lowering. -/
def charLower (c : Char) : Char :=
  if 65 ≤ c.toNat ∧ c.toNat ≤ 90 then Char.ofNat (c.toNat + 32) else c

/-- Lowercase every character of a string (see `charLower`). -/
def strLower (s : String) : String := String.mk (s.data.map charLower)

/-- Environment oracle for `install-whisper-deps.py`. `checkCall` tells
whether a `subprocess.check_call` on the given argument vector returns
normally (it is `false` both when the call raises `CalledProcessError` and
when the executable is missing, the two cases the script catches).
`sys.executable` is modelled by the fixed string `"python"`. -/
structure Env where
  versionMajor : Nat
  versionMinor : Nat
  system : String
  pathExists : String → Bool
  checkCall : List String → Bool
  tiktokenImportable : Bool
  whisperImportable : Bool
  modelLoadOk : Bool

/-- Embedding of `check_python_version` (lines 12-17): `true` means the
check passes (`sys.version_info ≥ (3, 8)`), `false` means the script calls
`sys.exit(1)`. Python compares version tuples lexicographically. -/
def check_python_version (env : Env) : Bool :=
  if env.versionMajor < 3 ∨ (env.versionMajor = 3 ∧ env.versionMinor < 8) then false
  else true

/-- The pip invocation built by `install_package`:
`[sys.executable, "-m", "pip", "install", package]`. -/
def pipCmd (package : String) : List String :=
  ["python", "-m", "pip", "install", package]

/-- Embedding of `install_package` (lines 19-26): one `check_call` of the
pip command; `CalledProcessError` is caught and mapped to `False`. Returns
the boolean result and the issued invocation. -/
def install_package (env : Env) (package : String) : Bool × List (List String) :=
  (env.checkCall (pipCmd package), [pipCmd package])

/-- Argument vector `["which", "brew"]`. -/
def whichBrew : List String := ["which", "brew"]

/-- Argument vector `["brew", "install", "ffmpeg"]`. -/
def brewInstall : List String := ["brew", "install", "ffmpeg"]

/-- Argument vector `["sudo", "apt", "update"]`. -/
def aptUpdate : List String := ["sudo", "apt", "update"]

/-- Argument vector `["sudo", "apt", "install", "-y", "ffmpeg"]`. -/
def aptInstall : List String := ["sudo", "apt", "install", "-y", "ffmpeg"]

/-- Argument vector `["sudo", "pacman", "-S", "--noconfirm", "ffmpeg"]`. -/
def pacmanInstall : List String := ["sudo", "pacman", "-S", "--noconfirm", "ffmpeg"]

/-- Argument vector `["ffmpeg", "-version"]`. -/
def ffmpegProbe : List String := ["ffmpeg", "-version"]

/-- The Debian-family marker file. -/
def debianMarker : String := "/etc/debian_version"

/-- The Arch marker file. -/
def archMarker : String := "/etc/arch-release"

/-- Embedding of `install_ffmpeg` (lines 28-74): branch on
`platform.system().lower()`; on linux, branch further on the marker files.
Each `subprocess.check_call` site has its own try/except, so a failed call
ends the branch with `False` and later calls in the branch are not issued.
Returns the boolean result and the ordered list of issued invocations. -/
def install_ffmpeg (env : Env) : Bool × List (List String) :=
  let system := strLower env.system
  if system = "windows" then
    (false, [])
  else if system = "darwin" then
    if env.checkCall whichBrew then
      (env.checkCall brewInstall, [whichBrew, brewInstall])
    else
      (false, [whichBrew])
  else if system = "linux" then
    if env.pathExists debianMarker then
      if env.checkCall aptUpdate then
        (env.checkCall aptInstall, [aptUpdate, aptInstall])
      else
        (false, [aptUpdate])
    else if env.pathExists archMarker then
      (env.checkCall pacmanInstall, [pacmanInstall])
    else
      (false, [])
  else
    (false, [])

/-- Embedding of `check_ffmpeg` (lines 76-84): one `check_call` of
`ffmpeg -version`; both `CalledProcessError` and `FileNotFoundError` are
caught and mapped to `False`. -/
def check_ffmpeg (env : Env) : Bool × List (List String) :=
  (env.checkCall ffmpegProbe, [ffmpegProbe])

/-- The hardcoded dependency list of `install_whisper_dependencies`
(lines 88-97). -/
def dependencies : List String :=
  ["torch", "numpy", "tqdm", "more-itertools", "transformers>=4.19.0",
   "ffmpeg-python", "setuptools-rust", "openai-whisper"]

/-- The installation loop of `install_whisper_dependencies` (lines 99-102):
each package is attempted in order; a failure only prints a warning and the
loop continues. -/
def installDeps (env : Env) : List String → List (List String)
  | [] => []
  | p :: rest => (install_package env p).2 ++ installDeps env rest

/-- Embedding of `install_whisper_dependencies` (lines 86-111): the loop
over the fixed list, then `tiktoken` is installed only when its import
fails. -/
def install_whisper_dependencies (env : Env) : List (List String) :=
  installDeps env dependencies ++
    (if env.tiktokenImportable then [] else (install_package env "tiktoken").2)

/-- Embedding of `test_whisper_installation` (lines 113-130): import the
library, then load the `base.en` model; `ImportError` and any other
exception are caught and mapped to `False`. No subprocess is issued. -/
def test_whisper_installation (env : Env) : Bool :=
  if env.whisperImportable then env.modelLoadOk else false

/-- The two CLI flags parsed by `main` (lines 134-137). -/
structure Args where
  skip_ffmpeg : Bool
  test : Bool

/-- The ffmpeg step of `main` (lines 142-146): run `check_ffmpeg`; only if
it fails, run `install_ffmpeg`. -/
def ffmpeg_step (env : Env) : List (List String) :=
  if (check_ffmpeg env).1 then (check_ffmpeg env).2
  else (check_ffmpeg env).2 ++ (install_ffmpeg env).2

/-- Embedding of `main` (lines 132-155) together with the `__main__` block
(lines 157-158): `check_python_version` may exit with status 1 before any
other step; otherwise the ffmpeg step (unless skipped), the dependency
loop, and the optional test step run, their results are discarded, and the
script falls off the end of `main`, so the process exit status is 0.
Returns the exit status and the ordered trace of issued invocations. -/
def main (env : Env) (args : Args) : Nat × List (List String) :=
  if check_python_version env = false then (1, [])
  else
    (0, (if args.skip_ffmpeg then [] else ffmpeg_step env)
          ++ install_whisper_dependencies env)

/-- Platform categories of the spec, section 4.3. -/
inductive Category
  | windows
  | macos
  | linuxDebian
  | linuxArch
  | linuxOther
  | unsupported
deriving DecidableEq, Repr

/-- The classification decision of `install_ffmpeg`, isolated: a pure
function of the lowercased OS name and the presence of the two Linux
marker files. -/
def classify (systemLower : String) (debian arch : Bool) : Category :=
  if systemLower = "windows" then Category.windows
  else if systemLower = "darwin" then Category.macos
  else if systemLower = "linux" then
    if debian then Category.linuxDebian
    else if arch then Category.linuxArch
    else Category.linuxOther
  else Category.unsupported

/-- The fixed behaviour of each platform category: the package-manager
invocations `install_ffmpeg` issues for that category (with guidance-only
categories issuing none). -/
def categoryBranch (env : Env) : Category → Bool × List (List String)
  | Category.windows => (false, [])
  | Category.macos =>
      if env.checkCall whichBrew then
        (env.checkCall brewInstall, [whichBrew, brewInstall])
      else
        (false, [whichBrew])
  | Category.linuxDebian =>
      if env.checkCall aptUpdate then
        (env.checkCall aptInstall, [aptUpdate, aptInstall])
      else
        (false, [aptUpdate])
  | Category.linuxArch =>
      (env.checkCall pacmanInstall, [pacmanInstall])
  | Category.linuxOther => (false, [])
  | Category.unsupported => (false, [])

/-- The classification inputs of an environment: lowercased OS name and
the two marker-file bits. -/
def classInputs (env : Env) : String × Bool × Bool :=
  (strLower env.system, env.pathExists debianMarker, env.pathExists archMarker)

/-- The category `install_ffmpeg` assigns to an environment. -/
def envCategory (env : Env) : Category :=
  classify (strLower env.system) (env.pathExists debianMarker) (env.pathExists archMarker)

end InstallWhisperDeps

section ClaimTheorems

/-- Auxiliary fact: the dependency loop issues exactly one pip invocation
per package, in list order. -/
theorem installDeps_eq_map (env : InstallWhisperDeps.Env) (l : List String) :
    InstallWhisperDeps.installDeps env l = l.map InstallWhisperDeps.pipCmd := by
  induction l with
  | nil => rfl
  | cons p rest ih =>
      simp [InstallWhisperDeps.installDeps, InstallWhisperDeps.install_package, ih]

/-- An environment in which every external command raises / fails. -/
def failEnv : InstallFasterWhisper.Env :=
  ⟨fun _ => Except.error "boom"⟩

/-- An environment in which every external command completes with code 0. -/
def okEnv : InstallFasterWhisper.Env :=
  ⟨fun _ => Except.ok ⟨0, "out", "err"⟩⟩

/-- A Debian-like host: OS name `Linux`, Debian marker present, every
check_call succeeds except the `ffmpeg -version` probe (binary absent). -/
def debianEnv : InstallWhisperDeps.Env where
  versionMajor := 3
  versionMinor := 10
  system := "Linux"
  pathExists := fun p => p == InstallWhisperDeps.debianMarker
  checkCall := fun c => !(c == InstallWhisperDeps.ffmpegProbe)
  tiktokenImportable := true
  whisperImportable := true
  modelLoadOk := true

/-- A host on which every check_call succeeds (in particular the ffmpeg
probe), with an old-style OS name and no marker files. -/
def presentEnv : InstallWhisperDeps.Env where
  versionMajor := 3
  versionMinor := 11
  system := "Darwin"
  pathExists := fun _ => false
  checkCall := fun _ => true
  tiktokenImportable := false
  whisperImportable := true
  modelLoadOk := true

/-- A host with a Python older than 3.8. -/
def oldPythonEnv : InstallWhisperDeps.Env where
  versionMajor := 3
  versionMinor := 7
  system := "Linux"
  pathExists := fun _ => false
  checkCall := fun _ => true
  tiktokenImportable := true
  whisperImportable := false
  modelLoadOk := false

/-- C9: in install-whisper-deps.py, whenever the Python version check
passes (version at least 3.8) and no unexpected exception escapes, the
process exits with status 0 — no failure of the ffmpeg step, of any package
installation, or of the verification step can produce a non-zero exit
status, because `main` never feeds a failure value to `sys.exit`. -/
theorem version_ok_always_exits_zero (env : InstallWhisperDeps.Env)
    (args : InstallWhisperDeps.Args)
    (h : InstallWhisperDeps.check_python_version env = true) :
    (InstallWhisperDeps.main env args).1 = 0 := by
  simp [InstallWhisperDeps.main, h]

/-- Witness for `version_ok_always_exits_zero` at a concrete host (Python
3.10, ffmpeg probe failing, verification requested). -/
theorem version_ok_always_exits_zero_witness :
    InstallWhisperDeps.check_python_version debianEnv = true ∧
    (InstallWhisperDeps.main debianEnv ⟨false, true⟩).1 = 0 :=
  ⟨by decide, version_ok_always_exits_zero debianEnv ⟨false, true⟩ (by decide)⟩

/-- C10: `run_command` in install-faster-whisper.py is total: for every
command it returns a `(succeeded, stdout, stderr)` triple and never raises.
An exception from the subprocess call is mapped to `(false, "", text)`, and
on a completed call the succeeded flag is true exactly when the process
exit code is 0. -/
theorem run_command_total_spec (env : InstallFasterWhisper.Env) (c : String) :
    (∀ e, env.exec c = Except.error e →
        InstallFasterWhisper.run_command env c = (false, "", e)) ∧
    (∀ r, env.exec c = Except.ok r →
        InstallFasterWhisper.run_command env c = (r.returncode == 0, r.stdout, r.stderr)
          ∧ ((InstallFasterWhisper.run_command env c).1 = true ↔ r.returncode = 0)) := by
  constructor
  · intro e he
    simp [InstallFasterWhisper.run_command, he]
  · intro r hr
    constructor
    · simp [InstallFasterWhisper.run_command, hr]
    · simp [InstallFasterWhisper.run_command, hr]

/-- Witness for `run_command_total_spec`: one exception case and one
completed case, both at concrete environments. -/
theorem run_command_total_spec_witness :
    InstallFasterWhisper.run_command failEnv "pip --version" = (false, "", "boom")
    ∧ InstallFasterWhisper.run_command okEnv "pip --version"
        = (((0 : Int) == 0), "out", "err") :=
  ⟨(run_command_total_spec failEnv "pip --version").1 "boom" rfl,
   ((run_command_total_spec okEnv "pip --version").2 ⟨0, "out", "err"⟩ rfl).1⟩

/-- C3: if the idempotent presence check for ffmpeg succeeds (the
`ffmpeg -version` probe returns success), the ffmpeg step of
install-whisper-deps.py reports success and issues no installation
invocation: its whole trace is the version probe itself. -/
theorem ffmpeg_present_no_install (env : InstallWhisperDeps.Env)
    (h : env.checkCall InstallWhisperDeps.ffmpegProbe = true) :
    (InstallWhisperDeps.check_ffmpeg env).1 = true
    ∧ InstallWhisperDeps.ffmpeg_step env = [InstallWhisperDeps.ffmpegProbe] := by
  constructor
  · simpa [InstallWhisperDeps.check_ffmpeg] using h
  · simp [InstallWhisperDeps.ffmpeg_step, InstallWhisperDeps.check_ffmpeg, h]

/-- Witness for `ffmpeg_present_no_install` at a host where every
check_call succeeds. -/
theorem ffmpeg_present_no_install_witness :
    (InstallWhisperDeps.check_ffmpeg presentEnv).1 = true
    ∧ InstallWhisperDeps.ffmpeg_step presentEnv = [InstallWhisperDeps.ffmpegProbe] :=
  ffmpeg_present_no_install presentEnv (by decide)

/-- C6: on a Linux host with the Debian marker file present, the ffmpeg
binary absent, and the package-index update succeeding, the ffmpeg step
issues exactly the probe followed by the Debian two-step sequence, once and
in order — `apt update` first, then `apt install -y ffmpeg` — and no other
installation command. -/
theorem debian_two_step (env : InstallWhisperDeps.Env)
    (hsys : InstallWhisperDeps.strLower env.system = "linux")
    (hdeb : env.pathExists InstallWhisperDeps.debianMarker = true)
    (hff : env.checkCall InstallWhisperDeps.ffmpegProbe = false)
    (hupd : env.checkCall InstallWhisperDeps.aptUpdate = true) :
    InstallWhisperDeps.ffmpeg_step env
      = [InstallWhisperDeps.ffmpegProbe, InstallWhisperDeps.aptUpdate,
         InstallWhisperDeps.aptInstall] := by
  simp [InstallWhisperDeps.ffmpeg_step, InstallWhisperDeps.check_ffmpeg,
        InstallWhisperDeps.install_ffmpeg, hsys, hdeb, hff, hupd]

/-- Witness for `debian_two_step` at the concrete Debian-like host. -/
theorem debian_two_step_witness :
    InstallWhisperDeps.ffmpeg_step debianEnv
      = [InstallWhisperDeps.ffmpegProbe, InstallWhisperDeps.aptUpdate,
         InstallWhisperDeps.aptInstall] :=
  debian_two_step debianEnv (by decide) (by decide) (by decide) (by decide)

/-- An environment in which only the primary package-installation command
fails; the fallback and everything else complete with code 0. -/
def fallbackEnv : InstallFasterWhisper.Env :=
  ⟨fun c => if c == InstallFasterWhisper.installCmd then Except.ok ⟨1, "", "conflict"⟩
            else Except.ok ⟨0, "", ""⟩⟩

/-- An environment in which only the verification command fails; the
probes and the installation complete with code 0. -/
def verifyFailEnv : InstallFasterWhisper.Env :=
  ⟨fun c => if c == InstallFasterWhisper.verifyCmd then Except.ok ⟨1, "", "no module"⟩
            else Except.ok ⟨0, "", ""⟩⟩

/-- A host with a current Python where the whisper library cannot
be imported, so the verification step fails. -/
def noWhisperEnv : InstallWhisperDeps.Env where
  versionMajor := 3
  versionMinor := 9
  system := "Windows"
  pathExists := fun _ => false
  checkCall := fun _ => true
  tiktokenImportable := true
  whisperImportable := false
  modelLoadOk := false

/-- A host identical to `debianEnv` in its classification inputs (OS name
up to case, marker files) but different everywhere else. -/
def debianEnvTwin : InstallWhisperDeps.Env where
  versionMajor := 3
  versionMinor := 12
  system := "LINUX"
  pathExists := fun p => p == InstallWhisperDeps.debianMarker
  checkCall := fun _ => true
  tiktokenImportable := false
  whisperImportable := false
  modelLoadOk := false

/-- C1: the platform classifier of `install_ffmpeg` assigns exactly one of
the six categories, as a pure function of the lowercased OS name and of the
presence of the two marker files (environments agreeing on those inputs
classify identically), and `install_ffmpeg` factors through the category:
the assigned category alone selects the fixed package-manager invocations
(or guidance-only behaviour) performed. -/
theorem platform_classification_pure_and_total :
    (∀ e₁ e₂ : InstallWhisperDeps.Env,
        InstallWhisperDeps.classInputs e₁ = InstallWhisperDeps.classInputs e₂ →
        InstallWhisperDeps.envCategory e₁ = InstallWhisperDeps.envCategory e₂) ∧
    (∀ env : InstallWhisperDeps.Env,
        InstallWhisperDeps.install_ffmpeg env
          = InstallWhisperDeps.categoryBranch env (InstallWhisperDeps.envCategory env)) := by
  constructor
  · intro e₁ e₂ h
    simp only [InstallWhisperDeps.classInputs, Prod.mk.injEq] at h
    obtain ⟨h1, h2, h3⟩ := h
    simp [InstallWhisperDeps.envCategory, h1, h2, h3]
  · intro env
    unfold InstallWhisperDeps.install_ffmpeg InstallWhisperDeps.envCategory
      InstallWhisperDeps.classify InstallWhisperDeps.categoryBranch
    split_ifs <;> simp_all

/-- Witness for `platform_classification_pure_and_total`: two hosts whose
OS names differ only in case classify identically, and the factoring holds
at the concrete Debian-like host. -/
theorem platform_classification_witness :
    InstallWhisperDeps.envCategory debianEnv = InstallWhisperDeps.envCategory debianEnvTwin
    ∧ InstallWhisperDeps.install_ffmpeg debianEnv
        = InstallWhisperDeps.categoryBranch debianEnv (InstallWhisperDeps.envCategory debianEnv) :=
  ⟨platform_classification_pure_and_total.1 debianEnv debianEnvTwin (by decide),
   platform_classification_pure_and_total.2 debianEnv⟩

/-- C2: if the python runtime probe or the pip probe fails, the
install-faster-whisper orchestrator exits with status 1 without issuing any
package-installation command (neither the primary nor the fallback
invocation appears in its trace); likewise install-whisper-deps exits with
status 1 and an empty trace when its Python-version check fails. -/
theorem missing_tool_aborts_before_install
    (fenv : InstallFasterWhisper.Env) (wenv : InstallWhisperDeps.Env)
    (args : InstallWhisperDeps.Args)
    (hf : (InstallFasterWhisper.run_command fenv InstallFasterWhisper.pythonProbe).1 = false
        ∨ (InstallFasterWhisper.run_command fenv InstallFasterWhisper.pipProbe).1 = false)
    (hw : InstallWhisperDeps.check_python_version wenv = false) :
    (InstallFasterWhisper.exitCode fenv = 1
      ∧ InstallFasterWhisper.installCmd ∉ (InstallFasterWhisper.fmain fenv).2
      ∧ InstallFasterWhisper.upgradeCmd ∉ (InstallFasterWhisper.fmain fenv).2)
    ∧ InstallWhisperDeps.main wenv args = (1, []) := by
  refine ⟨?_, by simp [InstallWhisperDeps.main, hw]⟩
  rcases hf with h | h
  · have hm : InstallFasterWhisper.fmain fenv
        = (false, [InstallFasterWhisper.pythonProbe]) := by
      simp [InstallFasterWhisper.fmain, h]
    exact ⟨by simp [InstallFasterWhisper.exitCode, hm],
           by rw [hm]; decide, by rw [hm]; decide⟩
  · by_cases hpy :
      (InstallFasterWhisper.run_command fenv InstallFasterWhisper.pythonProbe).1 = true
    · have hm : InstallFasterWhisper.fmain fenv
          = (false, [InstallFasterWhisper.pythonProbe, InstallFasterWhisper.pipProbe]) := by
        simp [InstallFasterWhisper.fmain, hpy, h]
      exact ⟨by simp [InstallFasterWhisper.exitCode, hm],
             by rw [hm]; decide, by rw [hm]; decide⟩
    · have hm : InstallFasterWhisper.fmain fenv
          = (false, [InstallFasterWhisper.pythonProbe]) := by
        simp [InstallFasterWhisper.fmain, hpy]
      exact ⟨by simp [InstallFasterWhisper.exitCode, hm],
             by rw [hm]; decide, by rw [hm]; decide⟩

/-- Witness for `missing_tool_aborts_before_install`: the all-failing host
and a Python 3.7 host. -/
theorem missing_tool_witness :
    (InstallFasterWhisper.exitCode failEnv = 1
      ∧ InstallFasterWhisper.installCmd ∉ (InstallFasterWhisper.fmain failEnv).2
      ∧ InstallFasterWhisper.upgradeCmd ∉ (InstallFasterWhisper.fmain failEnv).2)
    ∧ InstallWhisperDeps.main oldPythonEnv ⟨false, false⟩ = (1, []) :=
  missing_tool_aborts_before_install failEnv oldPythonEnv ⟨false, false⟩
    (Or.inl (by decide)) (by decide)

/-- C4: when the primary installation command fails and the single
fallback (the upgrade variant) succeeds, install-faster-whisper reports
overall success and exits with status 0; and in every run whatsoever the
fallback command is issued at most once. -/
theorem fallback_success_overall_success (env : InstallFasterWhisper.Env)
    (hpy : (InstallFasterWhisper.run_command env InstallFasterWhisper.pythonProbe).1 = true)
    (hpip : (InstallFasterWhisper.run_command env InstallFasterWhisper.pipProbe).1 = true)
    (hinst : (InstallFasterWhisper.run_command env InstallFasterWhisper.installCmd).1 = false)
    (hup : (InstallFasterWhisper.run_command env InstallFasterWhisper.upgradeCmd).1 = true) :
    InstallFasterWhisper.fmain env
      = (true, [InstallFasterWhisper.pythonProbe, InstallFasterWhisper.pipProbe,
                InstallFasterWhisper.installCmd, InstallFasterWhisper.upgradeCmd])
    ∧ InstallFasterWhisper.exitCode env = 0
    ∧ (∀ fenv : InstallFasterWhisper.Env,
        (InstallFasterWhisper.fmain fenv).2.count InstallFasterWhisper.upgradeCmd ≤ 1) := by
  have hm : InstallFasterWhisper.fmain env
      = (true, [InstallFasterWhisper.pythonProbe, InstallFasterWhisper.pipProbe,
                InstallFasterWhisper.installCmd, InstallFasterWhisper.upgradeCmd]) := by
    simp [InstallFasterWhisper.fmain, hpy, hpip, hinst, hup]
  refine ⟨hm, by simp [InstallFasterWhisper.exitCode, hm], ?_⟩
  intro fenv
  unfold InstallFasterWhisper.fmain
  split_ifs <;> decide

/-- Witness for `fallback_success_overall_success` at the host where only
the primary installation command fails. -/
theorem fallback_success_witness :
    InstallFasterWhisper.fmain fallbackEnv
      = (true, [InstallFasterWhisper.pythonProbe, InstallFasterWhisper.pipProbe,
                InstallFasterWhisper.installCmd, InstallFasterWhisper.upgradeCmd])
    ∧ InstallFasterWhisper.exitCode fallbackEnv = 0
    ∧ (InstallFasterWhisper.fmain fallbackEnv).2.count InstallFasterWhisper.upgradeCmd ≤ 1 :=
  (fun h => ⟨h.1, h.2.1, h.2.2 fallbackEnv⟩)
    (fallback_success_overall_success fallbackEnv
      (by decide) (by decide) (by decide) (by decide))

/-- Counterexample to C5 as stated: a run of install-faster-whisper.py in
which python, pip and the installation all succeed but the verification
step fails; `main` returns False there, so the process exit status is 1,
not 0 — verification failure is fatal in this script. -/
theorem verification_nonfatal_counterexample :
    (InstallFasterWhisper.run_command verifyFailEnv InstallFasterWhisper.installCmd).1 = true
    ∧ (InstallFasterWhisper.run_command verifyFailEnv InstallFasterWhisper.verifyCmd).1 = false
    ∧ InstallFasterWhisper.exitCode verifyFailEnv = 1 := by
  decide

/-- C5 amended: in install-whisper-deps.py a verification failure is only
logged and the exit status stays 0; in install-faster-whisper.py, however,
a verification failure after a successful primary installation makes the
process exit with status 1. -/
theorem verification_failure_policy
    (wenv : InstallWhisperDeps.Env) (args : InstallWhisperDeps.Args)
    (hv : InstallWhisperDeps.check_python_version wenv = true)
    (_hwfail : InstallWhisperDeps.test_whisper_installation wenv = false)
    (fenv : InstallFasterWhisper.Env)
    (hpy : (InstallFasterWhisper.run_command fenv InstallFasterWhisper.pythonProbe).1 = true)
    (hpip : (InstallFasterWhisper.run_command fenv InstallFasterWhisper.pipProbe).1 = true)
    (hinst : (InstallFasterWhisper.run_command fenv InstallFasterWhisper.installCmd).1 = true)
    (hver : (InstallFasterWhisper.run_command fenv InstallFasterWhisper.verifyCmd).1 = false) :
    (InstallWhisperDeps.main wenv args).1 = 0
    ∧ InstallFasterWhisper.exitCode fenv = 1 := by
  constructor
  · simp [InstallWhisperDeps.main, hv]
  · simp [InstallFasterWhisper.exitCode, InstallFasterWhisper.fmain,
          hpy, hpip, hinst, hver]

/-- Witness for `verification_failure_policy` at concrete hosts where the
respective verification steps fail. -/
theorem verification_failure_policy_witness :
    (InstallWhisperDeps.main noWhisperEnv ⟨true, true⟩).1 = 0
    ∧ InstallFasterWhisper.exitCode verifyFailEnv = 1 :=
  verification_failure_policy noWhisperEnv ⟨true, true⟩ (by decide) (by decide)
    verifyFailEnv (by decide) (by decide) (by decide) (by decide)

/-- C7: with the skip-ffmpeg flag on and the test flag off, on a host whose
Python-version check passes, install-whisper-deps.py exits with status 0
whatever the outcome of the individual installations, and its trace is
exactly one pip invocation per package of the fixed dependency list, in
list order (plus the conditional tiktoken invocation), with no
binary-install step. -/
theorem skip_ffmpeg_best_effort (env : InstallWhisperDeps.Env)
    (hv : InstallWhisperDeps.check_python_version env = true) :
    (InstallWhisperDeps.main env ⟨true, false⟩).1 = 0
    ∧ (InstallWhisperDeps.main env ⟨true, false⟩).2
        = InstallWhisperDeps.dependencies.map InstallWhisperDeps.pipCmd
          ++ (if env.tiktokenImportable then []
              else [InstallWhisperDeps.pipCmd "tiktoken"]) := by
  constructor
  · simp [InstallWhisperDeps.main, hv]
  · simp [InstallWhisperDeps.main, hv,
          InstallWhisperDeps.install_whisper_dependencies, installDeps_eq_map,
          InstallWhisperDeps.install_package]

/-- Witness for `skip_ffmpeg_best_effort` at a concrete host (every
installation succeeding, tiktoken absent). -/
theorem skip_ffmpeg_best_effort_witness :
    (InstallWhisperDeps.main presentEnv ⟨true, false⟩).1 = 0
    ∧ (InstallWhisperDeps.main presentEnv ⟨true, false⟩).2
        = InstallWhisperDeps.dependencies.map InstallWhisperDeps.pipCmd
          ++ (if presentEnv.tiktokenImportable then []
              else [InstallWhisperDeps.pipCmd "tiktoken"]) :=
  skip_ffmpeg_best_effort presentEnv (by decide)

/-- C8: every subprocess failure is caught at its call site and converted
to a boolean result plus diagnostic text — an exception inside
`run_command` becomes `(false, "", text)`, `install_package` reduces to the
boolean outcome of its one `check_call` — and both entry points always
terminate with an exit status in {0, 1}. -/
theorem failures_caught_and_converted :
    (∀ (env : InstallFasterWhisper.Env) (c e : String),
        env.exec c = Except.error e →
        InstallFasterWhisper.run_command env c = (false, "", e)) ∧
    (∀ (env : InstallWhisperDeps.Env) (p : String),
        (InstallWhisperDeps.install_package env p).1
          = env.checkCall (InstallWhisperDeps.pipCmd p)) ∧
    (∀ env : InstallFasterWhisper.Env,
        InstallFasterWhisper.exitCode env = 0 ∨ InstallFasterWhisper.exitCode env = 1) ∧
    (∀ (env : InstallWhisperDeps.Env) (args : InstallWhisperDeps.Args),
        (InstallWhisperDeps.main env args).1 = 0
          ∨ (InstallWhisperDeps.main env args).1 = 1) := by
  refine ⟨?_, ?_, ?_, ?_⟩
  · intro env c e h
    simp [InstallFasterWhisper.run_command, h]
  · intro env p
    rfl
  · intro env
    unfold InstallFasterWhisper.exitCode
    split_ifs <;> simp
  · intro env args
    unfold InstallWhisperDeps.main
    split_ifs <;> simp

/-- Witness for `failures_caught_and_converted`: the conversion of a raised
exception at the all-failing host. -/
theorem failures_caught_witness :
    InstallFasterWhisper.run_command failEnv InstallFasterWhisper.pipProbe
      = (false, "", "boom")
    ∧ InstallFasterWhisper.exitCode failEnv = 1 :=
  ⟨failures_caught_and_converted.1 failEnv InstallFasterWhisper.pipProbe "boom" rfl,
   ((failures_caught_and_converted.2.2.1 failEnv).resolve_left (by decide))⟩

end ClaimTheorems
